import Mathlib

set_option linter.unusedVariables false

/-!
Verification development for the column-lineage extractor of the
`trial_and_error` repository (file `sqlparser.py`).

The extractor consumes the parse tree produced by the external `sqlparse`
tokenizer.  We embed that tree as the closed node union below: a node stores
exactly the data the extractor reads from it through the `sqlparse` API
(`value`, `get_real_name`, `get_parent_name`, `get_alias`, `get_parameters`,
`tokens`, `get_identifiers`).  `sqlparse.parse` itself is an external oracle
turning SQL text into a statement list; a `paren` node therefore carries, in
its `inner` field, the statement list that the oracle returns for the text
between its parentheses (`value[1:-1]`), which is exactly what
`extract_subquery` re-parses in the source.
-/

mutual

inductive Node where
  /-- a plain keyword token (`ttype is Keyword`), e.g. `FROM`, `JOIN`, `AS` -/
  | keyword (value : String)
  /-- a `sqlparse.sql.Identifier` group with its `get_real_name`,
  `get_parent_name` and `get_alias` results and its direct child tokens -/
  | ident (realName parentName aliasName : Option String) (value : String)
      (children : List Node)
  /-- a `sqlparse.sql.IdentifierList`; `ids` is the list returned by
  `get_identifiers()` -/
  | identList (value : String) (ids : List Node)
  /-- a `sqlparse.sql.Where` group with its direct child tokens -/
  | whereTok (value : String) (children : List Node)
  /-- a `sqlparse.sql.Comparison` group -/
  | comparison (value : String)
  /-- a `sqlparse.sql.Parenthesis`; `inner` is the external parse of the
  text between the parentheses (`value[1:-1]`) -/
  | paren (value : String) (children : List Node) (inner : List Stmt)
  /-- a `sqlparse.sql.Function` group; `params` is the list returned by
  `get_parameters()` -/
  | func (realName parentName aliasName : Option String) (value : String)
      (params : List Node)
  /-- a token with `ttype is Wildcard` (`*`) -/
  | wildcard (value : String)
  /-- any other token (DML keywords, names, punctuation, whitespace, ...) -/
  | other (value : String)

inductive Stmt where
  /-- a parsed statement: its `get_type()` result and its top-level tokens -/
  | mk (type : String) (tokens : List Node)

end

/-- the source text of a token (`token.value`). -/
def Node.value : Node → String
  | .keyword v => v
  | .ident _ _ _ v _ => v
  | .identList v _ => v
  | .whereTok v _ => v
  | .comparison v => v
  | .paren v _ _ => v
  | .func _ _ _ v _ => v
  | .wildcard v => v
  | .other v => v

/-- the direct child tokens of a group token (`token.tokens`).  Group kinds
whose children the extractor never inspects for `Identifier` instances
(notably `Function`, whose direct tokens are a name and a parenthesis)
are modelled with no children. -/
def Node.children : Node → List Node
  | .ident _ _ _ _ ch => ch
  | .identList _ ids => ids
  | .whereTok _ ch => ch
  | .paren _ ch _ => ch
  | _ => []

/-- `token.get_real_name()`: only `Identifier`/`Function` nodes expose it. -/
def get_real_name : Node → Option String
  | .ident rn _ _ _ _ => rn
  | .func rn _ _ _ _ => rn
  | _ => none

/-- `token.get_parent_name()`: the qualifier before the dot, if any. -/
def get_parent_name : Node → Option String
  | .ident _ pn _ _ _ => pn
  | .func _ pn _ _ _ => pn
  | _ => none

/-- `token.get_alias()`: the post-`AS` (or positional) alias, if any. -/
def get_alias : Node → Option String
  | .ident _ _ al _ _ => al
  | .func _ _ al _ _ => al
  | _ => none

/-- `token.get_parameters()` of a `Function` node. -/
def get_parameters : Node → List Node
  | .func _ _ _ _ ps => ps
  | _ => []

/-- whether a node is an `Identifier` instance. -/
def isIdent : Node → Bool
  | .ident .. => true
  | _ => false

/-- `statement.get_type()`. -/
def Stmt.getType : Stmt → String
  | .mk ty _ => ty

/-- `statement.tokens`. -/
def Stmt.tokens : Stmt → List Node
  | .mk _ ts => ts

/-- Python's `needle in hay` substring test on strings. -/
def strContains (hay needle : String) : Bool :=
  (List.range (hay.data.length + 1)).any
    (fun i => needle.data.isPrefixOf (hay.data.drop i))

/-- ASCII upper-casing of one character, as `str.upper()` acts on the ASCII
letters that occur in SQL keywords. -/
def charUpper (c : Char) : Char :=
  if 'a' ≤ c ∧ c ≤ 'z' then Char.ofNat (c.toNat - 32) else c

/-- `s.upper()` (restricted to ASCII, which covers every keyword test the
extractor performs). -/
def pyUpper (s : String) : String :=
  ⟨s.data.map charUpper⟩

/-- `get_token_alias` from the source: `token.get_alias()` when the token is
an `Identifier` or `Function` instance, else `None`. -/
def get_token_alias (n : Node) : Option String :=
  match n with
  | .ident .. => get_alias n
  | .func .. => get_alias n
  | _ => none

/-- `extract_full_table_name` from the source: `schema.table` when a
qualifier is present, else just the table name.  Python renders a `None`
real name inside the f-string as the text `None`, and an empty qualifier
string is falsy. -/
def extract_full_table_name (n : Node) : Option String :=
  let schema := get_parent_name n
  let table := get_real_name n
  match schema with
  | some s =>
      if s = "" then table
      else some (s ++ "." ++ (match table with | some t => t | none => "None"))
  | none => table

/-- The per-statement alias map `table_aliases`: a Python `dict` from the
alias key (possibly `None`) to the resolved table identity (possibly
`None`); insertion-ordered, overwrite keeps the original position. -/
abbrev AliasMap := List (Option String × Option String)

/-- `d[k] = v` / single-entry `d.update(...)` on a Python dict: overwrite in
place when the key exists, else append. -/
def dictInsert (m : AliasMap) (k v : Option String) : AliasMap :=
  if m.any (fun p => p.1 == k) then
    m.map (fun p => if p.1 == k then (k, v) else p)
  else m ++ [(k, v)]

/-- `d.update(entries)` on a Python dict, entry by entry in order. -/
def dictUpdate (m : AliasMap) (entries : AliasMap) : AliasMap :=
  entries.foldl (fun acc e => dictInsert acc e.1 e.2) m

/-- `d.get(k, default)` on a Python dict. -/
def dictGet (m : AliasMap) (k d : Option String) : Option String :=
  match m.find? (fun p => p.1 == k) with
  | some p => p.2
  | none => d

/-- `next(iter(d.values()), None)`: the first-inserted binding's value, or
`None` for an empty dict. -/
def dictFirstValue (m : AliasMap) : Option String :=
  match m with
  | [] => none
  | p :: _ => p.2

/-- One output column descriptor.  Fields that some descriptor shapes omit
entirely (the condition flags on wildcard descriptors, `isAggregation` on
non-function descriptors) are wrapped in an outer `Option`: `none` means the
JSON key is absent, `some x` that it is present with value `x` (where an
inner `none` is JSON `null`).  `sect` holds the `"section"` key. -/
structure ColumnDescriptor where
  name : Option String
  aliasName : Option String
  sect : String
  text : String
  table : Option String
  isJoinCondition : Option Bool
  joinText : Option (Option String)
  isFilterCondition : Option Bool
  conditionText : Option (Option String)
  isAggregation : Option Bool
  deriving DecidableEq, Repr

/-- hex digit used by JSON `\uXXXX` escapes. -/
def hexDigit (n : Nat) : String :=
  if n < 10 then String.singleton (Char.ofNat (48 + n))
  else String.singleton (Char.ofNat (87 + n))

/-- four lowercase hex digits. -/
def hex4 (n : Nat) : String :=
  hexDigit (n / 4096 % 16) ++ hexDigit (n / 256 % 16) ++
    hexDigit (n / 16 % 16) ++ hexDigit (n % 16)

/-- `json.dumps` escaping of one character (default `ensure_ascii=True`). -/
def escapeChar (c : Char) : String :=
  if c = '"' then "\\\""
  else if c = '\\' then "\\\\"
  else if c = '\n' then "\\n"
  else if c = '\t' then "\\t"
  else if c = '\r' then "\\r"
  else if c.toNat = 8 then "\\b"
  else if c.toNat = 12 then "\\f"
  else if c.toNat < 32 then "\\u" ++ hex4 c.toNat
  else if c.toNat < 127 then String.singleton c
  else if c.toNat < 65536 then "\\u" ++ hex4 c.toNat
  else
    "\\u" ++ hex4 (55296 + (c.toNat - 65536) / 1024) ++
      "\\u" ++ hex4 (56320 + (c.toNat - 65536) % 1024)

/-- `json.dumps` escaping of a string body. -/
def escapeString (s : String) : String :=
  s.data.foldl (fun acc c => acc ++ escapeChar c) ""

/-- a JSON string or `null`. -/
def jsonOfOptString : Option String → String
  | none => "null"
  | some s => "\"" ++ escapeString s ++ "\""

/-- a JSON boolean. -/
def jsonOfBool : Bool → String
  | true => "true"
  | false => "false"

/-- the key/rendered-value pairs of one descriptor, in Python dict insertion
order; absent fields contribute no pair. -/
def descriptorFields (d : ColumnDescriptor) : List (String × String) :=
  [("name", jsonOfOptString d.name),
   ("alias", jsonOfOptString d.aliasName),
   ("section", jsonOfOptString (some d.sect)),
   ("text", jsonOfOptString (some d.text)),
   ("table", jsonOfOptString d.table)]
  ++ (match d.isJoinCondition with
      | some b => [("isJoinCondition", jsonOfBool b)] | none => [])
  ++ (match d.joinText with
      | some v => [("joinText", jsonOfOptString v)] | none => [])
  ++ (match d.isFilterCondition with
      | some b => [("isFilterCondition", jsonOfBool b)] | none => [])
  ++ (match d.conditionText with
      | some v => [("conditionText", jsonOfOptString v)] | none => [])
  ++ (match d.isAggregation with
      | some b => [("isAggregation", jsonOfBool b)] | none => [])

/-- one descriptor rendered as `json.dumps(..., indent=4)` renders a dict
element of a top-level list. -/
def renderDescriptor (d : ColumnDescriptor) : String :=
  "    \x7b\n" ++
    String.intercalate ",\n"
      ((descriptorFields d).map
        (fun f => "        \"" ++ f.1 ++ "\": " ++ f.2)) ++
    "\n    \x7d"

/-- `json.dumps(columns, indent=4)` for the descriptor list. -/
def dumps (l : List ColumnDescriptor) : String :=
  match l with
  | [] => "[]"
  | _ => "[\n" ++ String.intercalate ",\n" (l.map renderDescriptor) ++ "\n]"

/-- the `join_keywords` list from `extract_join_conditions`. -/
def join_keywords : List String :=
  ["JOIN", "LEFT JOIN", "RIGHT JOIN", "FULL OUTER JOIN"]

/-- whether a token triggers the join-condition branch:
`any(keyword in token.value.upper() for keyword in join_keywords)` —
a substring test on the token's upper-cased source text, regardless of the
token's kind. -/
def triggersJoin (t : Node) : Bool :=
  join_keywords.any (fun kw => strContains (pyUpper t.value) kw)

/-- `next((t for t in statement.tokens if isinstance(t, Comparison)), None)`:
the source text of the first top-level Comparison token, if any. -/
def firstComparison (tokens : List Node) : Option String :=
  tokens.findSome? (fun t => match t with | .comparison v => some v | _ => none)

/-- the token loop of `extract_join_conditions`: for each triggering token
append the first top-level comparison's text (the generator expression in
the source recomputes that same first comparison on every iteration). -/
def joinCondLoop (first : Option String) : List Node → List String
  | [] => []
  | t :: rest =>
      (if triggersJoin t then
        (match first with | some v => [v] | none => [])
      else [])
      ++ joinCondLoop first rest

/-- `extract_join_conditions` from the source. -/
def extract_join_conditions (s : Stmt) : List String :=
  joinCondLoop (firstComparison s.tokens) s.tokens

/-- `extract_filter_conditions` from the source: the texts of the Comparison
tokens directly inside each Where token, in document order. -/
def extract_filter_conditions (s : Stmt) : List String :=
  s.tokens.flatMap (fun t =>
    match t with
    | .whereTok _ sub =>
        sub.flatMap (fun st => match st with | .comparison v => [v] | _ => [])
    | _ => [])

/-- `column_name in cond` for the possibly-missing real name.  The source
would raise `TypeError` on a `None` name combined with a non-empty condition
list; `sqlparse` gives every plain column identifier a real name and the
claims below only concern named columns, so a missing name is modelled as a
non-match. -/
def pyNameIn (name : Option String) (cond : String) : Bool :=
  match name with
  | some nm => strContains cond nm
  | none => false

/-- `build_column_metadata` from the source. -/
def build_column_metadata (identifier : Node) (aliasName : Option String)
    (text : String) (table_aliases : AliasMap)
    (join_conditions filter_conditions : List String) : ColumnDescriptor :=
  let table_alias := get_parent_name identifier
  let table := dictGet table_aliases table_alias table_alias
  let column_name := get_real_name identifier
  let is_join := join_conditions.any (fun cond => pyNameIn column_name cond)
  let join_text := join_conditions.find? (fun cond => pyNameIn column_name cond)
  let is_filter := filter_conditions.any (fun cond => pyNameIn column_name cond)
  let filter_text :=
    filter_conditions.find? (fun cond => pyNameIn column_name cond)
  { name := column_name,
    aliasName := aliasName,
    sect := "select",
    text := text,
    table := table,
    isJoinCondition := some is_join,
    joinText := some (if is_join then join_text else none),
    isFilterCondition := some is_filter,
    conditionText := some (if is_filter then filter_text else none),
    isAggregation := none }

/-- `parse_column` from the source: an expression whose text contains a
parenthesis contributes one descriptor per Identifier among its direct
child tokens, all sharing the outer alias and the full expression text;
otherwise the identifier contributes exactly one descriptor. -/
def parse_column (identifier : Node) (table_aliases : AliasMap)
    (join_conditions filter_conditions : List String) :
    List ColumnDescriptor :=
  let aliasName := get_token_alias identifier
  if strContains identifier.value "(" then
    (identifier.children.filter isIdent).map
      (fun sub => build_column_metadata sub aliasName identifier.value
        table_aliases join_conditions filter_conditions)
  else
    [build_column_metadata identifier aliasName identifier.value
      table_aliases join_conditions filter_conditions]

/-- `parse_function` from the source. -/
def parse_function (function : Node) (table_aliases : AliasMap)
    (join_conditions filter_conditions : List String) :
    List ColumnDescriptor :=
  let column_name :=
    match get_parameters function with
    | [] => none
    | p :: _ => get_real_name p
  let aliasName := get_token_alias function
  let table_alias := get_parent_name function
  let table := dictGet table_aliases table_alias table_alias
  [{ name := column_name,
     aliasName := aliasName,
     sect := "select",
     text := function.value,
     table := table,
     isJoinCondition := some false,
     joinText := some none,
     isFilterCondition := some false,
     conditionText := some none,
     isAggregation := some true }]

/-- the Wildcard branch of the Step-4 loop in `extract_columns_from_query`:
note that the emitted dict carries no condition-flag keys at all. -/
def wildcardDescriptor (v : String) (table_aliases : AliasMap) :
    ColumnDescriptor :=
  { name := some "*",
    aliasName := none,
    sect := "select",
    text := v,
    table := dictFirstValue table_aliases,
    isJoinCondition := none,
    joinText := none,
    isFilterCondition := none,
    conditionText := none,
    isAggregation := none }

/-- one iteration of the Step-4 column loop in `extract_columns_from_query`:
IdentifierList members and Identifier tokens go through `parse_column`,
Function tokens through `parse_function`, Wildcard tokens produce the plain
wildcard descriptor, and every other token contributes nothing.  The loop
runs over all top-level tokens, not only the select list. -/
def tokenColumns (table_aliases : AliasMap)
    (join_conditions filter_conditions : List String) :
    Node → List ColumnDescriptor
  | .identList _ ids =>
      ids.flatMap (fun identifier =>
        parse_column identifier table_aliases join_conditions
          filter_conditions)
  | t@(.ident ..) =>
      parse_column t table_aliases join_conditions filter_conditions
  | t@(.func ..) =>
      parse_function t table_aliases join_conditions filter_conditions
  | .wildcard v => [wildcardDescriptor v table_aliases]
  | _ => []

/-- the Step-4 loop over all top-level tokens of one statement. -/
def selectColumns (tokens : List Node) (table_aliases : AliasMap)
    (join_conditions filter_conditions : List String) :
    List ColumnDescriptor :=
  tokens.flatMap
    (tokenColumns table_aliases join_conditions filter_conditions)

/-- the first-Identifier alias search in `extract_subquery`:
the loop `for token in parenthesis.tokens: if isinstance(token, Identifier):
subquery_alias = get_token_alias(token); break` starting from
`subquery_alias = None`. -/
def firstInnerIdentAlias (ch : List Node) : Option String :=
  match ch.find? isIdent with
  | some t => get_token_alias t
  | none => none

/-- `token.ttype is Keyword and token.value.upper() == 'FROM'`. -/
def isFromKeyword : Node → Bool
  | .keyword v => pyUpper v == "FROM"
  | _ => false

mutual

/-- the statement loop of `extract_columns_from_query`: non-`SELECT`
statements are skipped (`continue`); `SELECT` statements contribute their
descriptors in order, each computed from its own alias map and condition
lists. -/
def extractColumnsList : List Stmt → List ColumnDescriptor
  | [] => []
  | s :: rest =>
      (if s.getType == "SELECT" then statementColumns s else [])
        ++ extractColumnsList rest
termination_by structural l => l

/-- the per-`SELECT`-statement body of `extract_columns_from_query`
(Steps 1–4): build the alias map and the condition lists, then run the
column loop over the statement's top-level tokens.  The Step-1 call
`extract_table_aliases(statement)` appears inlined as `tableAliasLoop` on
the statement's tokens; `statementColumns_eq` below restates it through
`extract_table_aliases`. -/
def statementColumns : Stmt → List ColumnDescriptor
  | .mk ty toks =>
      selectColumns toks (tableAliasLoop false [] toks)
        (extract_join_conditions (.mk ty toks))
        (extract_filter_conditions (.mk ty toks))
termination_by structural s => s

/-- the token loop of `extract_table_aliases`: `from_seen` is set by the
`FROM` keyword and never reset; once set, the token is handled by
`tableAliasStep`. -/
def tableAliasLoop (from_seen : Bool) (acc : AliasMap) :
    List Node → AliasMap
  | [] => acc
  | t :: rest =>
      tableAliasLoop (from_seen || isFromKeyword t)
        (tableAliasStep (from_seen || isFromKeyword t) acc t) rest
termination_by structural l => l

/-- one iteration of the `extract_table_aliases` token loop once `from_seen`
is known: IdentifierList members and Identifier tokens go through
`process_table_or_subquery` and bare Parenthesis tokens through
`extract_subquery` (an empty result leaves the dict unchanged, matching the
`if subquery:` guard).  The structural recursion cannot route the Identifier
and Parenthesis arms through calls of `process_table_or_subquery` /
`extract_subquery` on the matched token itself, so their bodies are inlined
here, specialised to the arm's constructor; `tableAliasStep_eq` below
restates this function in the source's shape. -/
def tableAliasStep (fs : Bool) (acc : AliasMap) : Node → AliasMap
  | .identList _ ids => if fs then processTableList acc ids else acc
  | .ident rn pn al v ch =>
      if fs then
        dictUpdate acc
          (if strContains v "(" then []
           else [(get_token_alias (.ident rn pn al v ch),
                  extract_full_table_name (.ident rn pn al v ch))])
      else acc
  | .paren _ ch inner =>
      if fs then
        dictUpdate acc
          [(firstInnerIdentAlias ch, some (dumps (extractColumnsList inner)))]
      else acc
  | _ => acc
termination_by structural n => n

/-- the IdentifierList branch of `extract_table_aliases`:
`for identifier in token.get_identifiers():
table_aliases.update(process_table_or_subquery(identifier))`. -/
def processTableList (acc : AliasMap) : List Node → AliasMap
  | [] => acc
  | identifier :: rest =>
      processTableList
        (dictUpdate acc (process_table_or_subquery identifier)) rest
termination_by structural l => l

/-- `process_table_or_subquery` from the source.  The body of
`extract_subquery` is inlined in the subquery branch (the structural
recursion cannot route the same-argument call through `extract_subquery`);
`process_table_or_subquery_eq` below shows the function literally equals
the source's `extract_subquery` call. -/
def process_table_or_subquery (identifier : Node) : AliasMap :=
  if strContains identifier.value "(" then
    match identifier with
    | .paren _ ch inner =>
        [(firstInnerIdentAlias ch, some (dumps (extractColumnsList inner)))]
    | _ => []
  else
    [(get_token_alias identifier, extract_full_table_name identifier)]
termination_by structural identifier

/-- `extract_subquery` from the source: non-Parenthesis input yields the
empty dict; a Parenthesis binds the alias of the first Identifier among its
direct tokens (possibly `None`) to the serialized recursive lineage result
of its inner statement list — the source's
`extract_columns_from_query(parenthesis.value[1:-1])`, which is
`dumps (extractColumnsList inner)` here. -/
def extract_subquery : Node → AliasMap
  | .paren _ ch inner =>
      [(firstInnerIdentAlias ch, some (dumps (extractColumnsList inner)))]
  | _ => []

end

/-- `extract_columns_from_query` from the source: the statement list stands
for `sqlparse.parse(sql_query)`; the result is the serialized JSON array. -/
def extract_columns_from_query (stmts : List Stmt) : String :=
  dumps (extractColumnsList stmts)

/-- `extract_table_aliases` from the source. -/
def extract_table_aliases (s : Stmt) : AliasMap :=
  tableAliasLoop false [] s.tokens

/-- `statementColumns` restated through the source's pipeline shape. -/
lemma statementColumns_eq (s : Stmt) :
    statementColumns s =
      selectColumns s.tokens (extract_table_aliases s)
        (extract_join_conditions s) (extract_filter_conditions s) := by
  cases s with
  | mk ty toks => rfl

/-- `process_table_or_subquery` agrees with the source text, in which the
subquery branch is the call `extract_subquery(identifier)`. -/
lemma process_table_or_subquery_eq (identifier : Node) :
    process_table_or_subquery identifier =
      if strContains identifier.value "(" then extract_subquery identifier
      else [(get_token_alias identifier, extract_full_table_name identifier)] := by
  cases identifier <;> rfl

/-- `extract_subquery` on a Parenthesis, restated through
`extract_columns_from_query` exactly as in the source. -/
lemma extract_subquery_paren (v : String) (ch : List Node)
    (inner : List Stmt) :
    extract_subquery (.paren v ch inner) =
      [(firstInnerIdentAlias ch, some (extract_columns_from_query inner))] :=
  rfl

/-- closed form of the join-condition loop: one entry per triggering token,
each equal to the first top-level comparison (nothing is appended when no
comparison exists). -/
lemma joinCondLoop_closed_form (first : Option String) (l : List Node) :
    joinCondLoop first l
      = match first with
        | some v => (l.filter triggersJoin).map (fun _ => v)
        | none => [] := by
  induction l with
  | nil => cases first <;> rfl
  | cons t rest ih =>
      cases first with
      | none =>
          simp only [joinCondLoop, ih]
          cases triggersJoin t <;> simp
      | some v =>
          by_cases ht : triggersJoin t = true <;>
            simp [joinCondLoop, ih, ht, List.filter_cons]

/-- C2: for every non-function descriptor (every descriptor built by
`build_column_metadata`) carrying a bare real name, `isJoinCondition`
(resp. `isFilterCondition`) is true iff that name occurs as a substring of
at least one captured join (resp. filter) condition text, and the recorded
`joinText` (resp. `conditionText`) is then the first matching condition
text in extraction order. -/
theorem c2_substring_correlation (n : Node) (al : Option String)
    (txt : String) (m : AliasMap) (joins filters : List String) (nm : String)
    (h : get_real_name n = some nm) :
    ((build_column_metadata n al txt m joins filters).isJoinCondition
        = some true ↔ ∃ c ∈ joins, strContains c nm = true)
  ∧ ((build_column_metadata n al txt m joins filters).isJoinCondition
        = some true →
      (build_column_metadata n al txt m joins filters).joinText
        = some (joins.find? (fun c => strContains c nm)))
  ∧ ((build_column_metadata n al txt m joins filters).isFilterCondition
        = some true ↔ ∃ c ∈ filters, strContains c nm = true)
  ∧ ((build_column_metadata n al txt m joins filters).isFilterCondition
        = some true →
      (build_column_metadata n al txt m joins filters).conditionText
        = some (filters.find? (fun c => strContains c nm))) := by
  refine ⟨?_, ?_, ?_, ?_⟩
  · simp [build_column_metadata, h, pyNameIn, List.any_eq_true]
  · simp only [build_column_metadata, h, pyNameIn, Option.some.injEq]
    intro hj
    simp [hj]
  · simp [build_column_metadata, h, pyNameIn, List.any_eq_true]
  · simp only [build_column_metadata, h, pyNameIn, Option.some.injEq]
    intro hj
    simp [hj]

/-- concrete identifier for the C2 witness: a column named `id`. -/
def c2_node : Node := .ident (some "id") (some "c") none "c.id" []

/-- C2 witness: with the single join condition `c.valid_id = t.cid`, whose
only column names merely contain `id` as a substring, the descriptor for
`c.id` is still flagged as a join condition and records that text. -/
theorem c2_witness :
    (build_column_metadata c2_node none "c.id"
        [(some "c", some "customer")] ["c.valid_id = t.cid"] []
      ).isJoinCondition = some true
  ∧ (build_column_metadata c2_node none "c.id"
        [(some "c", some "customer")] ["c.valid_id = t.cid"] []
      ).joinText = some (some "c.valid_id = t.cid") := by
  have h := c2_substring_correlation c2_node none "c.id"
    [(some "c", some "customer")] ["c.valid_id = t.cid"] [] "id" rfl
  have hflag := h.1.mpr (by decide)
  refine ⟨hflag, ?_⟩
  rw [h.2.1 hflag]
  decide

/-- whether a token is a plain keyword token (`ttype is Keyword`). -/
def isKeywordNode : Node → Bool
  | .keyword _ => true
  | _ => false

/-- Modelled from the spec's words for claim C3: the join-condition
extractor appends exactly one entry per JOIN-family *keyword* token, and
every appended entry is the text of the first Comparison in the statement's
token sequence. -/
def claimC3 (s : Stmt) : Prop :=
  (extract_join_conditions s).length
      = (s.tokens.filter (fun t => isKeywordNode t && triggersJoin t)).length
  ∧ ∀ e ∈ extract_join_conditions s, firstComparison s.tokens = some e

/-- `SELECT joined_ids FROM t JOIN u ON a = b`: the projected column
`joined_ids` is not a keyword token, yet its upper-cased text contains
`JOIN`. -/
def c3_stmt : Stmt :=
  .mk "SELECT"
    [.other "SELECT", .ident (some "joined_ids") none none "joined_ids" [],
     .keyword "FROM", .ident (some "t") none none "t" [],
     .keyword "JOIN", .ident (some "u") none none "u" [],
     .keyword "ON", .comparison "a = b"]

/-- C3 counterexample: on `c3_stmt` the extractor appends two entries (one
for the identifier `joined_ids`, one for the `JOIN` keyword) although the
statement has a single JOIN-family keyword token, refuting the per-keyword
count. -/
theorem c3_counterexample : ¬ claimC3 c3_stmt := by
  unfold claimC3
  decide

/-- C3 (amended): the extractor appends one entry per token *of any kind*
whose upper-cased source text contains a JOIN-family keyword as a
substring, provided a top-level Comparison exists, and every entry is the
source text of the first top-level Comparison of the statement. -/
theorem c3_join_conditions_closed_form (s : Stmt) :
    extract_join_conditions s
      = match firstComparison s.tokens with
        | some v => (s.tokens.filter triggersJoin).map (fun _ => v)
        | none => [] :=
  joinCondLoop_closed_form (firstComparison s.tokens) s.tokens

/-- the Parenthesis child of the C5 failing input: the tokenizer groups the
balanced parentheses of `(c.lastName || ' ' || c.firstName)` into one
Parenthesis node, so the two qualified column Identifiers are its children,
not the projected item's.  Its `inner` field (the oracle parse of the text
between the parentheses) is never consulted by `parse_column`, which does
not descend into the parenthesis. -/
def c5_paren : Node :=
  .paren "(c.lastName || ' ' || c.firstName)"
    [Node.other "(",
     Node.ident (some "lastName") (some "c") none "c.lastName" [],
     Node.other "||", Node.other "' '", Node.other "||",
     Node.ident (some "firstName") (some "c") none "c.firstName" [],
     Node.other ")"]
    []

/-- the projected item `(c.lastName || ' ' || c.firstName) fullName` as the
tokenizer produces it: an Identifier whose direct tokens are the
Parenthesis, whitespace, and the trailing positional alias — itself wrapped
in an Identifier.  Its `get_real_name`/`get_alias` both resolve to
`fullName`, the first name found after the parenthesis. -/
def c5_node : Node :=
  .ident (some "fullName") none (some "fullName")
    "(c.lastName || ' ' || c.firstName) fullName"
    [c5_paren, Node.other " ",
     Node.ident (some "fullName") none none "fullName" []]

/-- C5 (behaviour at the failing input): for the projected expression
`(c.lastName || ' ' || c.firstName) fullName`, `parse_column`'s
parenthesized branch filters only the node's *direct* children for
Identifier instances.  The two qualified column identifiers sit inside the
Parenthesis child, so the only direct-child Identifier is the trailing
alias: the branch emits exactly one descriptor, named after the alias with
a null table — not one descriptor per wrapped column and not two
descriptors as the claim requires. -/
theorem c5_multi_identifier_expression_collapsed :
    (parse_column c5_node [(some "c", some "customer")] [] []).length = 1
  ∧ (parse_column c5_node [(some "c", some "customer")] [] []).map
      (fun d => (d.name, d.aliasName, d.table))
      = [(some "fullName", some "fullName", none)]
  ∧ (c5_node.children.filter isIdent).length = 1
  ∧ (c5_paren.children.filter isIdent).length = 2 := by
  refine ⟨by decide, by decide, by decide, by decide⟩

/-- Modelled from the spec's words for claim C6: the descriptor name is the
real name of the function's first positional argument if that argument is
an identifier, else null. -/
def claimC6name (f : Node) : Option String :=
  match get_parameters f with
  | [] => none
  | p :: _ => if isIdent p then get_real_name p else none

/-- `SUM(COALESCE(x, 0))`: the first parameter returned for the outer
function is the nested Function node, not an identifier. -/
def c6_func : Node :=
  .func (some "SUM") none none "SUM(COALESCE(x, 0))"
    [.func (some "COALESCE") none none "COALESCE(x, 0)"
      [.ident (some "x") none none "x" []]]

/-- C6 counterexample: for `SUM(COALESCE(x, 0))` the source takes the real
name of the first parameter whatever it is, producing `COALESCE`, while the
claim demands null because that parameter is not an identifier. -/
theorem c6_counterexample :
    ∃ d ∈ parse_function c6_func [] [] [], d.name ≠ claimC6name c6_func := by
  decide

/-- C6 (amended): a projected function-call node yields exactly one
descriptor with `isAggregation` true, join/filter flags present and false
with null texts, `text` the full call source text, `table` resolved through
the alias map by the function's own qualifier with fallback to the raw
qualifier, and `name` the real name of the first `get_parameters` entry
whenever that list is non-empty — whether or not that entry is an
identifier — and null only when it is empty. -/
theorem c6_function_descriptor (rn pn al : Option String) (v : String)
    (ps : List Node) (m : AliasMap) (joins filters : List String) :
    parse_function (.func rn pn al v ps) m joins filters
      = [{ name := match ps with | [] => none | p :: _ => get_real_name p,
           aliasName := al,
           sect := "select",
           text := v,
           table := dictGet m pn pn,
           isJoinCondition := some false,
           joinText := some none,
           isFilterCondition := some false,
           conditionText := some none,
           isAggregation := some true }] := rfl

/-- C8: a non-function descriptor whose qualifier has no binding in the
alias map — a null qualifier included — carries the raw qualifier itself as
`table`; the lookup never fails. -/
theorem c8_unresolved_qualifier_fallback (n : Node) (al : Option String)
    (txt : String) (m : AliasMap) (joins filters : List String)
    (h : m.find? (fun p => p.1 == get_parent_name n) = none) :
    (build_column_metadata n al txt m joins filters).table
      = get_parent_name n := by
  simp [build_column_metadata, dictGet, h]

/-- C8 witness: a qualified column `z.dob` whose alias `z` is unbound passes
`z` through, and an unqualified column with a null qualifier passes null
through, both against a non-empty alias map. -/
theorem c8_witness :
    (build_column_metadata (Node.ident (some "dob") (some "z") none "z.dob" [])
        none "z.dob" [(some "c", some "customer")] [] []).table = some "z"
  ∧ (build_column_metadata (Node.ident (some "dob") none none "dob" [])
        none "dob" [(some "c", some "customer")] [] []).table = none := by
  constructor
  · exact (c8_unresolved_qualifier_fallback _ none "z.dob"
      [(some "c", some "customer")] [] [] (by decide)).trans (by decide)
  · exact (c8_unresolved_qualifier_fallback _ none "dob"
      [(some "c", some "customer")] [] [] (by decide)).trans (by decide)

/-- a present text field holds a string exactly when the guarding flag
computed it from a successful search. -/
lemma exists_text_iff_flag (b : Bool) (o : Option String)
    (hb : b = true → ∃ s, o = some s) :
    (∃ s, (some (if b then o else none) : Option (Option String))
        = some (some s)) ↔ some b = some true := by
  cases b with
  | false => simp
  | true => simpa using hb rfl

/-- every descriptor built by `build_column_metadata` has its text field
non-null exactly when the corresponding flag is true. -/
lemma build_flag_text (n : Node) (al : Option String) (txt : String)
    (m : AliasMap) (joins filters : List String) :
    ((∃ s, (build_column_metadata n al txt m joins filters).joinText
        = some (some s))
      ↔ (build_column_metadata n al txt m joins filters).isJoinCondition
        = some true)
  ∧ ((∃ s, (build_column_metadata n al txt m joins filters).conditionText
        = some (some s))
      ↔ (build_column_metadata n al txt m joins filters).isFilterCondition
        = some true) := by
  constructor
  · simp only [build_column_metadata]
    exact exists_text_iff_flag _ _ (fun h => by
      rcases Option.isSome_iff_exists.1
        (List.find?_isSome.2 (List.any_eq_true.1 h)) with ⟨w, hw⟩
      exact ⟨w, hw⟩)
  · simp only [build_column_metadata]
    exact exists_text_iff_flag _ _ (fun h => by
      rcases Option.isSome_iff_exists.1
        (List.find?_isSome.2 (List.any_eq_true.1 h)) with ⟨w, hw⟩
      exact ⟨w, hw⟩)

/-- every descriptor emitted by `parse_column` is built by
`build_column_metadata`. -/
lemma parse_column_mem_build (d : ColumnDescriptor) (n : Node) (m : AliasMap)
    (joins filters : List String) (hd : d ∈ parse_column n m joins filters) :
    ∃ n1 al txt, d = build_column_metadata n1 al txt m joins filters := by
  by_cases h : strContains n.value "(" = true
  · simp only [parse_column, h, if_true] at hd
    rcases List.mem_map.1 hd with ⟨sub, _, rfl⟩
    exact ⟨sub, _, _, rfl⟩
  · simp only [parse_column, h] at hd
    simp at hd
    exact ⟨n, _, _, hd⟩

/-- every descriptor emitted for one token has its text fields non-null
exactly when the corresponding flags are true (identifier-derived,
function-derived and wildcard-derived descriptors alike). -/
lemma tokenColumns_flag_text (m : AliasMap) (joins filters : List String)
    (t : Node) (d : ColumnDescriptor)
    (hd : d ∈ tokenColumns m joins filters t) :
    ((∃ s, d.joinText = some (some s)) ↔ d.isJoinCondition = some true)
  ∧ ((∃ s, d.conditionText = some (some s))
      ↔ d.isFilterCondition = some true) := by
  cases t with
  | identList v ids =>
      simp only [tokenColumns] at hd
      rcases List.mem_flatMap.1 hd with ⟨id1, _, hmem⟩
      rcases parse_column_mem_build d id1 m joins filters hmem with
        ⟨n1, al, txt, rfl⟩
      exact build_flag_text n1 al txt m joins filters
  | ident rn pn al v ch =>
      simp only [tokenColumns] at hd
      rcases parse_column_mem_build d _ m joins filters hd with
        ⟨n1, al1, txt, rfl⟩
      exact build_flag_text n1 al1 txt m joins filters
  | func rn pn al v ps =>
      simp only [tokenColumns, parse_function, List.mem_singleton] at hd
      subst hd
      simp
  | wildcard v =>
      simp only [tokenColumns, List.mem_singleton] at hd
      subst hd
      simp [wildcardDescriptor]
  | keyword v => simp [tokenColumns] at hd
  | whereTok v ch => simp [tokenColumns] at hd
  | comparison v => simp [tokenColumns] at hd
  | paren v ch inner => simp [tokenColumns] at hd
  | other v => simp [tokenColumns] at hd

/-- C9: for every descriptor the extractor emits — identifier-derived,
function-derived or wildcard-derived — `joinText` is non-null iff
`isJoinCondition` is present and true, and `conditionText` is non-null iff
`isFilterCondition` is present and true (on wildcard descriptors all four
fields are absent, satisfying both equivalences). -/
theorem c9_flag_text_consistency (stmts : List Stmt) (d : ColumnDescriptor)
    (hd : d ∈ extractColumnsList stmts) :
    ((∃ s, d.joinText = some (some s)) ↔ d.isJoinCondition = some true)
  ∧ ((∃ s, d.conditionText = some (some s))
      ↔ d.isFilterCondition = some true) := by
  induction stmts with
  | nil => simp [extractColumnsList] at hd
  | cons s rest ih =>
      simp only [extractColumnsList] at hd
      rcases List.mem_append.1 hd with h1 | h2
      · by_cases hsel : (s.getType == "SELECT") = true
        · rw [if_pos hsel, statementColumns_eq] at h1
          simp only [selectColumns] at h1
          rcases List.mem_flatMap.1 h1 with ⟨t, _, hmem⟩
          exact tokenColumns_flag_text _ _ _ t d hmem
        · rw [if_neg hsel] at h1
          simp at h1
      · exact ih h2

/-- C9 witness: the wildcard descriptor of `SELECT *` (an empty alias map)
satisfies both equivalences. -/
theorem c9_witness :
    ((∃ s, (wildcardDescriptor "*" []).joinText = some (some s))
        ↔ (wildcardDescriptor "*" []).isJoinCondition = some true)
  ∧ ((∃ s, (wildcardDescriptor "*" []).conditionText = some (some s))
        ↔ (wildcardDescriptor "*" []).isFilterCondition = some true) :=
  c9_flag_text_consistency [Stmt.mk "SELECT" [Node.wildcard "*"]] _ (by decide)

/-- C10: the extractor renders one JSON array for the whole batch; the
descriptor list is concatenation-compatible in statement order; a
non-`SELECT` statement contributes no descriptors (and no error); a
`SELECT` statement contributes exactly the descriptors computed from its
own alias map and condition lists. -/
theorem c10_batch_processing (stmts stmts1 stmts2 : List Stmt) (s t : Stmt)
    (hs : s.getType ≠ "SELECT") (ht : t.getType = "SELECT") :
    extract_columns_from_query stmts = dumps (extractColumnsList stmts)
  ∧ extractColumnsList (stmts1 ++ stmts2)
      = extractColumnsList stmts1 ++ extractColumnsList stmts2
  ∧ extractColumnsList [s] = []
  ∧ extractColumnsList [t]
      = selectColumns t.tokens (extract_table_aliases t)
          (extract_join_conditions t) (extract_filter_conditions t) := by
  refine ⟨rfl, ?_, ?_, ?_⟩
  · induction stmts1 with
    | nil => rfl
    | cons a as ih => simp [extractColumnsList, ih]
  · simp [extractColumnsList, hs]
  · simp [extractColumnsList, ht, statementColumns_eq]

/-- C10 witness: a batch of an `INSERT` and a `SELECT *`: the first
statement contributes nothing, the second its own descriptors, and the
output is the serialized concatenation. -/
theorem c10_witness :
    extract_columns_from_query
        [Stmt.mk "INSERT" [Node.other "INSERT INTO t VALUES (1)"],
         Stmt.mk "SELECT" [Node.wildcard "*"]]
      = dumps (extractColumnsList
          [Stmt.mk "INSERT" [Node.other "INSERT INTO t VALUES (1)"],
           Stmt.mk "SELECT" [Node.wildcard "*"]])
  ∧ extractColumnsList
        ([Stmt.mk "INSERT" [Node.other "INSERT INTO t VALUES (1)"]]
          ++ [Stmt.mk "SELECT" [Node.wildcard "*"]])
      = extractColumnsList [Stmt.mk "INSERT" [Node.other "INSERT INTO t VALUES (1)"]]
          ++ extractColumnsList [Stmt.mk "SELECT" [Node.wildcard "*"]]
  ∧ extractColumnsList [Stmt.mk "INSERT" [Node.other "INSERT INTO t VALUES (1)"]] = []
  ∧ extractColumnsList [Stmt.mk "SELECT" [Node.wildcard "*"]]
      = selectColumns (Stmt.mk "SELECT" [Node.wildcard "*"]).tokens
          (extract_table_aliases (Stmt.mk "SELECT" [Node.wildcard "*"]))
          (extract_join_conditions (Stmt.mk "SELECT" [Node.wildcard "*"]))
          (extract_filter_conditions (Stmt.mk "SELECT" [Node.wildcard "*"])) :=
  c10_batch_processing _ _ _ _ _ (by decide) (by decide)

/-- Modelled from the spec's words for claim C4: a statement projecting a
wildcard emits exactly one descriptor, with name `*`, table the
first-inserted alias-map binding (null when the map is empty), and all
condition flags present and false. -/
def claimC4 (s : Stmt) : Prop :=
  (statementColumns s).length = 1
  ∧ ∀ d ∈ statementColumns s,
      d.name = some "*"
      ∧ d.table = dictFirstValue (extract_table_aliases s)
      ∧ d.isJoinCondition = some false
      ∧ d.isFilterCondition = some false

/-- `SELECT * FROM orders o`. -/
def c4_stmt : Stmt :=
  .mk "SELECT"
    [.other "SELECT", .wildcard "*", .keyword "FROM",
     .ident (some "orders") none (some "o") "orders o" []]

/-- C4 counterexample: `SELECT * FROM orders o` emits two descriptors (the
token loop also visits the FROM-clause identifier `orders o`), and the
wildcard descriptor carries no condition-flag fields at all rather than
present-and-false ones. -/
theorem c4_counterexample : ¬ claimC4 c4_stmt := by
  unfold claimC4
  decide

/-- C4 (amended): each Wildcard token of a statement contributes exactly one
descriptor — name `*`, alias null, text the token text, table the
first-inserted alias-map value (null when the map is empty) and no
condition-flag or text fields at all — while other top-level tokens (such
as the FROM-clause identifier) may contribute further descriptors. -/
theorem c4_wildcard_descriptor (s : Stmt) (v : String)
    (h : Node.wildcard v ∈ s.tokens) :
    { name := some "*", aliasName := none, sect := "select", text := v,
      table := dictFirstValue (extract_table_aliases s),
      isJoinCondition := none, joinText := none, isFilterCondition := none,
      conditionText := none, isAggregation := none : ColumnDescriptor }
      ∈ statementColumns s
  ∧ tokenColumns (extract_table_aliases s) (extract_join_conditions s)
        (extract_filter_conditions s) (.wildcard v)
      = [{ name := some "*", aliasName := none, sect := "select", text := v,
           table := dictFirstValue (extract_table_aliases s),
           isJoinCondition := none, joinText := none,
           isFilterCondition := none, conditionText := none,
           isAggregation := none }] := by
  constructor
  · rw [statementColumns_eq]
    simp only [selectColumns]
    exact List.mem_flatMap.2 ⟨.wildcard v, h, by simp [tokenColumns, wildcardDescriptor]⟩
  · rfl

/-- C4 witness: on `SELECT * FROM orders o` the wildcard descriptor is among
the emitted descriptors with `table = "orders"`; evaluating the instance
shows the first-inserted binding. -/
theorem c4_witness :
    { name := some "*", aliasName := none, sect := "select", text := "*",
      table := dictFirstValue (extract_table_aliases c4_stmt),
      isJoinCondition := none, joinText := none, isFilterCondition := none,
      conditionText := none, isAggregation := none : ColumnDescriptor }
      ∈ statementColumns c4_stmt
  ∧ dictFirstValue (extract_table_aliases c4_stmt) = some "orders" := by
  refine ⟨(c4_wildcard_descriptor c4_stmt "*" ?_).1, by decide⟩
  exact List.Mem.tail _ (List.Mem.head _)

/-- the inner statement `SELECT x FROM t` of the C1 failing input. -/
def c1_inner : List Stmt :=
  [Stmt.mk "SELECT"
    [Node.other "SELECT", Node.ident (some "x") none none "x" [],
     Node.keyword "FROM", Node.ident (some "t") none none "t" []]]

/-- the parenthesis `(SELECT x FROM t)` of the C1 failing input. -/
def c1_paren : Node :=
  .paren "(SELECT x FROM t)"
    [Node.other "(", Node.other "SELECT",
     Node.ident (some "x") none none "x" [],
     Node.keyword "FROM", Node.ident (some "t") none none "t" [],
     Node.other ")"]
    c1_inner

/-- the FROM source `(SELECT x FROM t) AS s`: `sqlparse` wraps an aliased
parenthesized subquery in an Identifier whose direct tokens are the
Parenthesis, the `AS` keyword and the alias name. -/
def c1_source : Node :=
  .ident none none (some "s") "(SELECT x FROM t) AS s"
    [c1_paren, .keyword "AS", .other "s"]

/-- `SELECT s.x FROM (SELECT x FROM t) AS s`. -/
def c1_stmt : Stmt :=
  .mk "SELECT"
    [.other "SELECT", .ident (some "x") (some "s") none "s.x" [],
     .keyword "FROM", c1_source]

/-- C1 (behaviour at the failing input): for
`SELECT s.x FROM (SELECT x FROM t) AS s` the FROM source reaches
`process_table_or_subquery` as an Identifier, whose subquery branch is the
`extract_subquery` call — and `extract_subquery` returns the empty dict for
any non-Parenthesis input.  The alias map therefore stays empty, and the
later reference `s.x` surfaces the raw qualifier `s` as `table` instead of
the serialized lineage result the claim requires. -/
theorem c1_aliased_subquery_unbound :
    extract_table_aliases c1_stmt = []
  ∧ (extractColumnsList [c1_stmt]).map ColumnDescriptor.table = [some "s"]
  ∧ process_table_or_subquery c1_source = extract_subquery c1_source
  ∧ extract_subquery c1_source = [] := by
  refine ⟨by decide, by decide, ?_, by decide⟩
  rw [process_table_or_subquery_eq]
  decide

/-- the bare parenthesized source `(SELECT x FROM t)` for C7: its first
inner Identifier is the projected column `x`, which has no alias. -/
def c7_paren : Node :=
  .paren "(SELECT x FROM t)"
    [Node.other "(", Node.other "SELECT",
     Node.ident (some "x") none none "x" [],
     Node.keyword "FROM", Node.ident (some "t") none none "t" []]
    [Stmt.mk "SELECT"
      [Node.other "SELECT", Node.ident (some "x") none none "x" [],
       Node.keyword "FROM", Node.ident (some "t") none none "t" []]]

/-- C7 counterexample: the subquery engine binds `(SELECT x FROM t)` under
the alias of the first Identifier inside the parenthesis — here the
aliasless column `x` — so the single binding it produces has a null key,
which the claim rules out (and the node's real name is never consulted). -/
theorem c7_counterexample :
    (extract_subquery c7_paren).map Prod.fst = [none]
  ∧ extract_subquery c7_paren ≠ [] := by
  constructor
  · decide
  · decide

/-- C7 (amended): a parenthesized table source is stripped of its
parentheses and the full pipeline runs on the inner text; the serialized
result is bound under the alias of the first Identifier token inside the
parenthesis (a null key when there is no such identifier or it has no
alias).  When that alias exists, a statement using the parenthesis as its
FROM source binds it in the alias map, and a later projected column
qualified by it surfaces the serialized lineage string verbatim as
`table`. -/
theorem c7_subquery_binding (v : String) (ch : List Node) (inner : List Stmt)
    (q col : String) (hq : firstInnerIdentAlias ch = some q)
    (hcol : strContains col "(" = false) :
    extract_subquery (.paren v ch inner)
      = [(some q, some (extract_columns_from_query inner))]
  ∧ extract_table_aliases
        (.mk "SELECT"
          [.other "SELECT", .ident (some col) (some q) none col [],
           .keyword "FROM", .paren v ch inner])
      = [(some q, some (extract_columns_from_query inner))]
  ∧ (statementColumns
        (.mk "SELECT"
          [.other "SELECT", .ident (some col) (some q) none col [],
           .keyword "FROM", .paren v ch inner])).map ColumnDescriptor.table
      = [some (extract_columns_from_query inner)] := by
  have hFrom : isFromKeyword (Node.keyword "FROM") = true := by decide
  have hPy : pyUpper "FROM" = "FROM" := by decide
  have h2 : extract_table_aliases
      (.mk "SELECT"
        [.other "SELECT", .ident (some col) (some q) none col [],
         .keyword "FROM", .paren v ch inner])
      = [(some q, some (extract_columns_from_query inner))] := by
    simp [extract_table_aliases, Stmt.tokens, tableAliasLoop, tableAliasStep,
      isFromKeyword, hFrom, hPy, dictUpdate, dictInsert, hq,
      extract_columns_from_query]
  refine ⟨by rw [extract_subquery_paren, hq], h2, ?_⟩
  rw [statementColumns_eq, h2]
  simp [selectColumns, Stmt.tokens, tokenColumns, parse_column, hcol,
    build_column_metadata, dictGet, get_parent_name, get_real_name,
    get_token_alias, get_alias, Node.value, List.find?]

/-- the direct tokens of `(SELECT x AS q FROM t)`, whose first inner
Identifier carries the alias `q`, for the C7 witness. -/
def c7w_children : List Node :=
  [Node.other "(", Node.other "SELECT",
   Node.ident (some "x") none (some "q") "x AS q" [],
   Node.keyword "FROM", Node.ident (some "t") none none "t" []]

/-- C7 witness: with the source `(SELECT x AS q FROM t)` the serialized
lineage of the inner statement is bound under `q`, and the projected column
`q.y` surfaces that serialized string verbatim. -/
theorem c7_witness :
    extract_subquery (.paren "(SELECT x AS q FROM t)" c7w_children [])
      = [(some "q", some (extract_columns_from_query []))]
  ∧ extract_table_aliases
        (.mk "SELECT"
          [.other "SELECT", .ident (some "y") (some "q") none "y" [],
           .keyword "FROM", .paren "(SELECT x AS q FROM t)" c7w_children []])
      = [(some "q", some (extract_columns_from_query []))]
  ∧ (statementColumns
        (.mk "SELECT"
          [.other "SELECT", .ident (some "y") (some "q") none "y" [],
           .keyword "FROM",
           .paren "(SELECT x AS q FROM t)" c7w_children []])).map
        ColumnDescriptor.table
      = [some (extract_columns_from_query [])] :=
  c7_subquery_binding "(SELECT x AS q FROM t)" c7w_children [] "q" "y"
    (by decide) (by decide)
